import Mathlib

/-
Verification of the backend classification engine of a build-backend
survey tool.  The definitions below are shallow embeddings of
`03_analyze.py` (registry, registry inversion, classifier, format
detector) and `04_count.py` (aggregation over persisted classification
records), plus a spec-modelled requirement-name canonicalization
(the repository delegates it to the external `packaging` library in
`06_count.py`).
-/

/-- The static registry mapping each family name to its known backend
identifiers (`BACKEND_FAMILIES` in `03_analyze.py`).  The identifier
`none` stands for an absent `build-backend` key. -/
def BACKEND_FAMILIES : List (String × List (Option String)) :=
  [("setuptools", [none, some "setuptools.build_meta",
                   some "setuptools.build_meta:__legacy__"]),
   ("poetry", [some "poetry.core.masonry.api", some "poetry.masonry.api",
               some "poetry_dynamic_versioning.backend"]),
   ("flit", [some "flit_core.buildapi", some "flit.buildapi",
             some "flit_scm:buildapi", some "flit_gettext.scm"]),
   ("maturin", [some "maturin"]),
   ("hatchling", [some "hatchling.build", some "hatchling.ouroboros"]),
   ("pdm", [some "pdm.backend", some "pdm.pep517.api",
            some "pdm.backend.intree"]),
   ("scikit-build-core", [some "scikit_build_core.build"]),
   ("mesonpy", [some "mesonpy"]),
   ("whey", [some "whey"]),
   ("jupyter-packaging", [some "jupyter_packaging.build_api"]),
   ("sipbuild", [some "sipbuild.api"]),
   ("sphinx-theme-builder", [some "sphinx_theme_builder"]),
   ("pbr", [some "pbr.build"])]

/-- One insertion into the inverted mapping
(`backend_to_family_mapping[member] = family`): a later insertion
overwrites any earlier binding of the same key, as in a Python dict
assignment. -/
def dictSet (family : String) (m : Option String → Option String)
    (member : Option String) : Option String → Option String :=
  fun k => if k = member then some family else m k

/-- The inversion loop of `main` in `03_analyze.py` (lines 65-68): for
each family, insert every member identifier into the identifier-to-family
mapping.  The mapping is modelled as a function defaulting to `none`. -/
def invertRegistry (reg : List (String × List (Option String))) :
    Option String → Option String :=
  reg.foldl (fun m fm => fm.2.foldl (dictSet fm.1) m) (fun _ => none)

/-- `backend_to_family_mapping` as computed in `main` of `03_analyze.py`. -/
def backend_to_family_mapping : Option String → Option String :=
  invertRegistry BACKEND_FAMILIES

/-- The `BuildSystem` named tuple of `03_analyze.py`. -/
structure BuildSystem where
  build_backend : Option String
  backend_path : Option (List String)
  requires : Option (List String)
  has_pep621 : Bool
deriving DecidableEq

/-- Python truthiness of the optional `backend-path` list: `None` and the
empty list are falsy. -/
def truthy : Option (List String) → Bool
  | none => false
  | some l => !l.isEmpty

/-- Python `bytes.strip()` on a line: drop leading and trailing whitespace. -/
def stripChars (l : List Char) : List Char :=
  ((l.dropWhile Char.isWhitespace).reverse.dropWhile Char.isWhitespace).reverse

/-- Python `line.strip()` on a line of a file, as a string. -/
def lineStrip (s : String) : String :=
  String.mk (stripChars s.data)

/-- Whether the character list `p` is an initial segment of the second list. -/
def startsWith : List Char → List Char → Bool
  | [], _ => true
  | _ :: _, [] => false
  | p :: ps, c :: cs => p == c && startsWith ps cs

/-- Whether the character list `p` occurs contiguously inside the second
list (Python substring containment; the empty pattern always occurs). -/
def occursIn : List Char → List Char → Bool
  | [], _ => true
  | _ :: _, [] => false
  | p, c :: rest => startsWith p (c :: rest) || occursIn p rest

/-- Python `pat in text` on strings: substring containment. -/
def strContains (text pat : String) : Bool :=
  occursIn pat.data text.data

/-- Python `" ".join(l)`. -/
def joinSpace (l : List String) : String :=
  String.intercalate " " l

/-- The list comprehension of `03_analyze.py` lines 88-89: the known family
names whose name occurs as a substring of the space-joined requirements. -/
def familyMatches (requires : List String) : List String :=
  (BACKEND_FAMILIES.map Prod.fst).filter
    (fun m => strContains (joinSpace requires) m)

/-- The failure modes of the classification loop of `03_analyze.py`:
the two assertion failures (each carrying the data interpolated in its
message) and the `TypeError` raised by `" ".join(None)`. -/
inductive ClassifyError where
  | unclassifiedBackend (backend : Option String) (dist : String)
  | multipleMatches (requires : List String) (dist : String)
  | joinTypeError
deriving DecidableEq

/-- Steps 1-2 of the per-package loop of `main` in `03_analyze.py`
(lines 79-96): registry lookup, custom-backend validation, and
requirements-based family inference.  Returns the `(family, backend)`
pair that is subsequently recorded, or the error the loop raises. -/
def classify (dist : String) (bs : BuildSystem) :
    Except ClassifyError (String × Option String) :=
  match backend_to_family_mapping bs.build_backend with
  | some family => .ok (family, bs.build_backend)
  | none =>
    if truthy bs.backend_path then
      match bs.requires with
      | none => .error ClassifyError.joinTypeError
      | some rs =>
        let matched := familyMatches rs
        if matched.length ≤ 1 then
          match matched with
          | [] => .ok ("(custom)", some "(custom)")
          | m :: _ => .ok (m, some "(custom)")
        else
          .error (ClassifyError.multipleMatches rs dist)
    else
      .error (ClassifyError.unclassifiedBackend bs.build_backend dist)

/-- Step 3 of the per-package loop of `main` in `03_analyze.py`
(lines 99-114): which setup file formats a setuptools project uses.
The `setup.cfg` file is modelled as an optional list of its lines
(`none` when the file is absent); `setup.py` by its existence bit. -/
def detectFormats (family : String) (has_pep621 : Bool)
    (setup_cfg_lines : Option (List String)) (setup_py_exists : Bool) :
    List String :=
  if family = "setuptools" then
    let formats : List String := []
    let formats := if has_pep621 then formats ++ ["pyproject.toml"] else formats
    let formats := match setup_cfg_lines with
      | none => formats
      | some ls =>
        if ls.any (fun l => lineStrip l == "[metadata]") then
          formats ++ ["setup.cfg"]
        else formats
    let formats := if setup_py_exists then formats ++ ["setup.py"] else formats
    formats
  else []

/-- One persisted per-package record as consumed by `04_count.py`
(the JSON object with keys `family`, `backend`, `formats`, `requires`). -/
structure ClassificationRecord where
  family : String
  backend : Option String
  formats : List String
  requires : Option (List String)
deriving DecidableEq

/-- The only failure of the aggregation loop of `04_count.py`: the
`TypeError` raised by `" ".join(None)` on line 36 (its message does not
identify the offending record). -/
inductive AggError where
  | joinTypeError
deriving DecidableEq

/-- The counters accumulated by `main` in `04_count.py`, modelled as
total functions (Python defaultdicts default to `0`). -/
@[ext]
structure Report where
  build_backend_families : String → Option String → Nat
  setuptools_formats : List String → Nat
  setuptools_wheel_deps : Nat
  other_backends_using_setuptools : String → Nat

/-- All counters zero, as initialized at the top of `main` in `04_count.py`. -/
def Report.empty : Report :=
  ⟨fun _ _ => 0, fun _ => 0, 0, fun _ => 0⟩

/-- Element-wise sum of two reports (pointwise per counter key). -/
def Report.add (a b : Report) : Report :=
  ⟨fun f k => a.build_backend_families f k + b.build_backend_families f k,
   fun t => a.setuptools_formats t + b.setuptools_formats t,
   a.setuptools_wheel_deps + b.setuptools_wheel_deps,
   fun f => a.other_backends_using_setuptools f
     + b.other_backends_using_setuptools f⟩

/-- The loop body of `main` in `04_count.py` (lines 26-37): bump the
family/backend counter, then either the setuptools format and wheel
counters, or the setuptools-combining counter for other families. -/
def countPackage (acc : Report) (p : ClassificationRecord) :
    Except AggError Report :=
  let acc1 := { acc with build_backend_families := fun f b =>
    if f = p.family ∧ b = p.backend then acc.build_backend_families f b + 1
    else acc.build_backend_families f b }
  if p.family = "setuptools" then
    let acc2 := { acc1 with setuptools_formats := fun t =>
      if t = p.formats then acc1.setuptools_formats t + 1
      else acc1.setuptools_formats t }
    let acc3 := if strContains (joinSpace (p.requires.getD [])) "wheel" then
      { acc2 with setuptools_wheel_deps := acc2.setuptools_wheel_deps + 1 }
    else acc2
    .ok acc3
  else
    match p.requires with
    | none => .error AggError.joinTypeError
    | some rs =>
      .ok (if strContains (joinSpace rs) "setuptools" then
        { acc1 with other_backends_using_setuptools := fun f =>
          if f = p.family then acc1.other_backends_using_setuptools f + 1
          else acc1.other_backends_using_setuptools f }
      else acc1)

/-- The aggregation loop of `main` in `04_count.py`, folded from an
explicit accumulator. -/
def countPackages : Report → List ClassificationRecord → Except AggError Report
  | acc, [] => .ok acc
  | acc, p :: ps =>
    match countPackage acc p with
    | .error e => .error e
    | .ok accNext => countPackages accNext ps

/-- Aggregation of a whole corpus of records, starting from zero counters. -/
def aggregate (records : List ClassificationRecord) : Except AggError Report :=
  countPackages Report.empty records

/-- Characters that end the package-name part of a requirement string
(start of a version specifier, extras bracket, or environment marker). -/
def isNameEnd (c : Char) : Bool :=
  c == ' ' || c == '<' || c == '>' || c == '=' || c == '!' || c == '~' ||
  c == ';' || c == '[' || c == '(' || c == ','

/-- Separator characters folded during canonicalization. -/
def isSep (c : Char) : Bool :=
  c == '-' || c == '_' || c == '.'

/-- One step of canonicalization: lowercase ordinary characters, emit a
single `-` for each run of separator characters (the flag records whether
the previous character was a separator). -/
def canonStep (acc : String × Bool) (c : Char) : String × Bool :=
  if isSep c then (if acc.2 then acc else (acc.1.push '-', true))
  else (acc.1.push c.toLower, false)

/-- Modelled from the spec: the repository normalizes a requirement string
to a canonical package name via the external `packaging` library
(`canonicalize_name(Requirement(requirement).name)` in `06_count.py`),
whose code is not part of this repository.  Per the spec, normalization
strips version specifiers and environment markers, lowercases, and folds
separator runs to a single delimiter. -/
def requirement_to_package (req : String) : String :=
  ((req.data.takeWhile (fun c => !isNameEnd c)).foldl canonStep ("", false)).1

/-- Folding `dictSet` over a member list behaves as a bulk overwrite: a key
in the member list ends up bound to the new family, any other key keeps its
old binding. -/
theorem foldl_dictSet (family : String) (ms : List (Option String))
    (m : Option String → Option String) (b : Option String) :
    (ms.foldl (dictSet family) m) b = if b ∈ ms then some family else m b := by
  induction ms generalizing m with
  | nil => simp
  | cons c rest ih =>
    rw [List.foldl_cons, ih]
    by_cases hb : b ∈ rest
    · simp [hb]
    · by_cases hc : b = c
      · simp [hb, hc, dictSet]
      · simp [hb, hc, dictSet]

/-- Mapping over an `ok` value applies the function. -/
theorem exceptMap_ok {ε α β : Type} (f : α → β) (a : α) :
    Except.map f (Except.ok a : Except ε α) = Except.ok (f a) := rfl

/-- Mapping over an `error` value keeps the error. -/
theorem exceptMap_error {ε α β : Type} (f : α → β) (e : ε) :
    Except.map f (Except.error e : Except ε α) = Except.error e := rfl

/-- Mapping twice over an `Except` composes the maps. -/
theorem exceptMap_map {ε α β γ : Type} (e : Except ε α) (f : α → β) (g : β → γ) :
    (e.map f).map g = e.map (fun a => g (f a)) := by
  cases e <;> rfl

/-- Pointwise-equal maps give equal results on any `Except`. -/
theorem exceptMap_congr {ε α β : Type} {e : Except ε α} {f g : α → β}
    (h : ∀ a, f a = g a) : e.map f = e.map g := by
  cases e <;> simp [Except.map, h]

/-- The aggregation error type has a single value. -/
theorem aggError_unique (a b : AggError) : a = b := by
  cases a; cases b; rfl

/-- Adding the zero report on the right changes nothing. -/
theorem Report.add_empty (a : Report) : Report.add a Report.empty = a := by
  ext <;> simp [Report.add, Report.empty]

/-- Report addition is associative. -/
theorem Report.add_assoc (a b c : Report) :
    Report.add (Report.add a b) c = Report.add a (Report.add b c) := by
  ext <;> simp [Report.add, Nat.add_assoc]

/-- Report addition is left-commutative. -/
theorem Report.add_left_comm (a b c : Report) :
    Report.add a (Report.add b c) = Report.add b (Report.add a c) := by
  ext <;> simp [Report.add] <;> omega

/-- Counting one record from an arbitrary accumulator equals counting it
from the zero report and adding the accumulator. -/
theorem countPackage_split (acc : Report) (p : ClassificationRecord) :
    countPackage acc p
      = (countPackage Report.empty p).map (fun t => Report.add acc t) := by
  obtain ⟨fam, b, fmts, req⟩ := p
  by_cases hf : fam = "setuptools"
  · subst hf
    by_cases hw : strContains (joinSpace (req.getD [])) "wheel" = true
    all_goals
      simp [countPackage, hw, exceptMap_ok]
    all_goals
      ext <;> simp [Report.add, Report.empty] <;> (try split_ifs) <;> omega
  · cases hr : req with
    | none => simp [countPackage, hf, exceptMap_error]
    | some rs =>
      by_cases hs : strContains (joinSpace rs) "setuptools" = true
      all_goals
        simp [countPackage, hf, hs, exceptMap_ok]
      all_goals
        ext <;> simp [Report.add, Report.empty] <;> (try split_ifs) <;> omega

/-- Aggregating from an arbitrary accumulator equals aggregating from zero
and adding the accumulator. -/
theorem countPackages_split (l : List ClassificationRecord) (acc : Report) :
    countPackages acc l = (aggregate l).map (fun r => Report.add acc r) := by
  induction l generalizing acc with
  | nil =>
    simp [countPackages, aggregate, exceptMap_ok, Report.add_empty]
  | cons p ps ih =>
    simp only [countPackages, aggregate]
    rw [countPackage_split]
    cases hc : countPackage Report.empty p with
    | error e => rfl
    | ok t =>
      show countPackages (Report.add acc t) ps
        = (countPackages t ps).map (fun r => Report.add acc r)
      rw [ih, ih, exceptMap_map]
      exact exceptMap_congr (fun r => Report.add_assoc acc t r)

/-- Aggregating a cons: tally the head from zero, then add it onto the
aggregate of the tail. -/
theorem aggregate_cons (p : ClassificationRecord) (ps : List ClassificationRecord) :
    aggregate (p :: ps)
      = match countPackage Report.empty p with
        | .error e => .error e
        | .ok t => (aggregate ps).map (fun r => Report.add t r) := by
  rw [aggregate]
  simp only [countPackages]
  cases hc : countPackage Report.empty p with
  | error e => rfl
  | ok t => exact countPackages_split ps t

/-- Aggregation distributes over list append, propagating the first error. -/
theorem countPackages_append (l1 l2 : List ClassificationRecord) (acc : Report) :
    countPackages acc (l1 ++ l2)
      = match countPackages acc l1 with
        | .error e => .error e
        | .ok r => countPackages r l2 := by
  induction l1 generalizing acc with
  | nil => simp [countPackages]
  | cons p ps ih =>
    simp only [List.cons_append, countPackages]
    cases countPackage acc p with
    | error e => rfl
    | ok r => exact ih r

/-- Aggregation is invariant under permutation of the record list. -/
theorem aggregate_perm {l1 l2 : List ClassificationRecord} (h : l1.Perm l2) :
    aggregate l1 = aggregate l2 := by
  induction h with
  | nil => rfl
  | cons x h ih => simp only [aggregate_cons, ih]
  | swap x y l =>
    simp only [aggregate_cons]
    cases hx : countPackage Report.empty x with
    | error ex =>
      cases hy : countPackage Report.empty y with
      | error ey => exact congrArg Except.error (aggError_unique ey ex)
      | ok ty => rfl
    | ok tx =>
      cases hy : countPackage Report.empty y with
      | error ey => rfl
      | ok ty =>
        show (Except.map (fun r => Report.add tx r) (aggregate l)).map
              (fun r => Report.add ty r)
          = (Except.map (fun r => Report.add ty r) (aggregate l)).map
              (fun r => Report.add tx r)
        rw [exceptMap_map, exceptMap_map]
        exact exceptMap_congr (fun r => Report.add_left_comm ty tx r)
  | trans h1 h2 ih1 ih2 => exact ih1.trans ih2

/-- Claim C1, counterexample: a concrete declaration with absent
`backend_identifier` and present `backend_search_paths` is not flagged as
malformed; it is silently accepted and assigned the family `setuptools`. -/
theorem classify_absent_backend_with_paths_cex :
    classify "somepkg" ⟨none, some ["backend"], some [], false⟩
      = .ok ("setuptools", none) := rfl

/-- Claim C1, amended: registry lookup is the unconditional first step, so
every declaration with absent `backend_identifier` is classified as the
legacy family `setuptools` with `resolved_backend = None`, regardless of
`backend_search_paths`; no malformed-input failure is reported. -/
theorem classify_absent_backend_with_paths (dist : String) (paths : List String)
    (req : Option (List String)) (pep : Bool) :
    classify dist ⟨none, some paths, req, pep⟩ = .ok ("setuptools", none) := rfl

/-- Claim C2: whenever the backend identifier (including the absent `none`
identifier) is a key of the inverted registry, classification returns the
registered family with the declared identifier as resolved backend, and the
result is independent of the search paths and requirements, so the
requirements-based inference step is never executed. -/
theorem classify_registry_hit (dist : String) (bs : BuildSystem) (fam : String)
    (paths req : Option (List String)) (pep : Bool)
    (h : backend_to_family_mapping bs.build_backend = some fam) :
    classify dist bs = .ok (fam, bs.build_backend) ∧
    classify dist ⟨bs.build_backend, paths, req, pep⟩
      = .ok (fam, bs.build_backend) := by
  constructor <;> simp [classify, h]

/-- Witness for C2: the absent identifier resolves to `setuptools`, even
when the requirements mention several other families. -/
theorem classify_registry_hit_witness :
    classify "pkg" ⟨none, none, none, false⟩ = .ok ("setuptools", none) ∧
    classify "pkg" ⟨none, some ["x"], some ["setuptools", "poetry-core"], true⟩
      = .ok ("setuptools", none) :=
  classify_registry_hit "pkg" ⟨none, none, none, false⟩ "setuptools"
    (some ["x"]) (some ["setuptools", "poetry-core"]) true rfl

/-- Claim C3: an identifier outside the registry with absent or empty
`backend_search_paths` makes classification fail with the
classification-integrity error carrying the offending identifier and the
package; no family is assigned. -/
theorem classify_unmatched_no_search_path (dist : String) (bs : BuildSystem)
    (h1 : backend_to_family_mapping bs.build_backend = none)
    (h2 : truthy bs.backend_path = false) :
    classify dist bs
      = .error (ClassifyError.unclassifiedBackend bs.build_backend dist) := by
  simp [classify, h1, h2]

/-- Witness for C3: both the absent-path and the empty-path cases fail. -/
theorem classify_unmatched_no_search_path_witness :
    classify "pkgA" ⟨some "my.backend", none, none, false⟩
      = .error (ClassifyError.unclassifiedBackend (some "my.backend") "pkgA") ∧
    classify "pkgB" ⟨some "my.backend", some [], some ["setuptools"], false⟩
      = .error (ClassifyError.unclassifiedBackend (some "my.backend") "pkgB") :=
  ⟨classify_unmatched_no_search_path "pkgA" ⟨some "my.backend", none, none, false⟩
     (by decide) rfl,
   classify_unmatched_no_search_path "pkgB"
     ⟨some "my.backend", some [], some ["setuptools"], false⟩ (by decide) rfl⟩

/-- Claim C4: for an unrecognized identifier with present search paths,
if more than one family name occurs in the joined requirements, then
classification fails with the ambiguity error and assigns no family; the
error payload (the requirements and package) textually contains every
candidate family name. -/
theorem classify_ambiguous_matches (dist : String) (bs : BuildSystem)
    (rs : List String)
    (h0 : bs.requires = some rs)
    (h1 : backend_to_family_mapping bs.build_backend = none)
    (h2 : truthy bs.backend_path = true)
    (h3 : 1 < (familyMatches rs).length) :
    classify dist bs = .error (ClassifyError.multipleMatches rs dist) ∧
    ∀ fam ∈ familyMatches rs, strContains (joinSpace rs) fam = true := by
  constructor
  · simp only [classify, h1, h2, h0, if_true]
    rw [if_neg (Nat.not_le.mpr h3)]
  · intro fam hf
    simp only [familyMatches] at hf
    exact (List.mem_filter.mp hf).2

/-- Witness for C4: requirements naming both setuptools and poetry make
classification fail with the ambiguity error. -/
theorem classify_ambiguous_matches_witness :
    classify "pkg" ⟨some "local.backend", some ["."],
        some ["setuptools", "poetry-core"], false⟩
      = .error (ClassifyError.multipleMatches ["setuptools", "poetry-core"] "pkg") :=
  (classify_ambiguous_matches "pkg"
    ⟨some "local.backend", some ["."], some ["setuptools", "poetry-core"], false⟩
    ["setuptools", "poetry-core"] rfl (by decide) rfl (by decide)).1

/-- Claim C5: for an unrecognized identifier with present search paths and
at most one matching family, classification succeeds with the single
matching family (or the sentinel family when none matches) and
`resolved_backend` is the sentinel string. -/
theorem classify_custom_fallback (dist : String) (bs : BuildSystem)
    (rs : List String)
    (h0 : bs.requires = some rs)
    (h1 : backend_to_family_mapping bs.build_backend = none)
    (h2 : truthy bs.backend_path = true)
    (h3 : (familyMatches rs).length ≤ 1) :
    classify dist bs
      = .ok ((familyMatches rs).headD "(custom)", some "(custom)") := by
  simp only [classify, h1, h2, h0, if_true]
  rw [if_pos h3]
  cases hm : familyMatches rs with
  | nil => simp
  | cons m t => simp

/-- Witness for C5: one match assigns that family, zero matches assign the
sentinel family; both resolve the backend to the sentinel. -/
theorem classify_custom_fallback_witness :
    classify "pkg1" ⟨some "local.backend", some ["."], some ["flit_core"], false⟩
      = .ok ("flit", some "(custom)") ∧
    classify "pkg2" ⟨some "local.backend", some ["."], some ["numpy"], false⟩
      = .ok ("(custom)", some "(custom)") :=
  ⟨classify_custom_fallback "pkg1"
     ⟨some "local.backend", some ["."], some ["flit_core"], false⟩
     ["flit_core"] rfl (by decide) rfl (by decide),
   classify_custom_fallback "pkg2"
     ⟨some "local.backend", some ["."], some ["numpy"], false⟩
     ["numpy"] rfl (by decide) rfl (by decide)⟩

/-- Claim C6, counterexample: inverting a registry in which two families
claim the same identifier literal does not fail; it silently keeps the
later family for that identifier. -/
theorem invertRegistry_conflict_cex :
    invertRegistry [("familyA", [some "shared.backend"]),
                    ("familyB", [some "shared.backend"])]
      (some "shared.backend") = some "familyB" := rfl

/-- Claim C6, amended: the registry inversion performs no duplicate check;
when a later registry entry claims an identifier, the inversion maps that
identifier to the later family (last write wins), silently overriding any
earlier family that claimed the same literal. -/
theorem invertRegistry_last_wins (reg : List (String × List (Option String)))
    (family : String) (ms : List (Option String)) (b : Option String)
    (h : b ∈ ms) :
    invertRegistry (reg ++ [(family, ms)]) b = some family := by
  unfold invertRegistry
  rw [List.foldl_append]
  simp only [List.foldl_cons, List.foldl_nil]
  rw [foldl_dictSet]
  simp [h]

/-- Witness for the amended C6: a conflicting identifier ends up mapped to
the later of the two families claiming it. -/
theorem invertRegistry_last_wins_witness :
    (some "x.y" ∈ [some "x.y", none]) ∧
    invertRegistry ([("poetry", [some "x.y"])] ++ [("flit", [some "x.y", none])])
      (some "x.y") = some "flit" :=
  ⟨by decide,
   invertRegistry_last_wins [("poetry", [some "x.y"])] "flit" [some "x.y", none]
     (some "x.y") (by decide)⟩

/-- Claim C7, counterexample: a setuptools record whose sole requirement
normalizes to `wheelhouse` still increments the wheel-dependency counter,
although the literal name `wheel` is not a member of the normalized
requirements; the counter test is a raw substring test. -/
theorem setuptools_wheel_raw_substring_cex :
    (countPackage Report.empty
        ⟨"setuptools", none, [], some ["wheelhouse"]⟩).map
      Report.setuptools_wheel_deps = .ok 1 ∧
    "wheel" ∉ ["wheelhouse"].map requirement_to_package :=
  ⟨rfl, by decide⟩

/-- Claim C7, amended: for every setuptools record the wheel-dependency
counter is incremented exactly when the string `wheel` occurs as a raw
substring of the space-joined requirements (absent requirements treated as
the empty list), not when the normalized name `wheel` is a member. -/
theorem setuptools_wheel_raw_substring (acc : Report) (b : Option String)
    (fmts : List String) (rs : Option (List String)) :
    (countPackage acc ⟨"setuptools", b, fmts, rs⟩).map
        Report.setuptools_wheel_deps
      = .ok (acc.setuptools_wheel_deps
          + if strContains (joinSpace (rs.getD [])) "wheel" then 1 else 0) := by
  by_cases hw : strContains (joinSpace (rs.getD [])) "wheel" = true
  · simp [countPackage, hw, exceptMap_ok]
  · simp [countPackage, hw, exceptMap_ok]

/-- Claim C8: on a setuptools package with the standard-metadata flag set,
a `setup.cfg` containing a line that strips to the `[metadata]` header, and
an existing `setup.py`, format detection yields exactly the three markers
in the fixed priority order. -/
theorem detectFormats_all_three (cfgLines : List String)
    (h1 : cfgLines.any (fun l => lineStrip l == "[metadata]") = true) :
    detectFormats "setuptools" true (some cfgLines) true
      = ["pyproject.toml", "setup.cfg", "setup.py"] := by
  simp [detectFormats, h1]

/-- Witness for C8 at a concrete `setup.cfg` content. -/
theorem detectFormats_all_three_witness :
    detectFormats "setuptools" true (some ["  [metadata]  ", "name = foo"]) true
      = ["pyproject.toml", "setup.cfg", "setup.py"] :=
  detectFormats_all_three ["  [metadata]  ", "name = foo"] (by decide)

/-- Claim C9: aggregating two sub-corpora independently and summing the
partial reports element-wise equals aggregating the concatenated corpus,
and the aggregate is invariant under permutation of the records. -/
theorem aggregate_merge_and_perm (l1 l2 l3 l4 : List ClassificationRecord)
    (r1 r2 : Report)
    (h1 : aggregate l1 = .ok r1) (h2 : aggregate l2 = .ok r2)
    (hp : l3.Perm l4) :
    aggregate (l1 ++ l2) = .ok (Report.add r1 r2) ∧ aggregate l3 = aggregate l4 := by
  constructor
  · rw [aggregate] at h1 ⊢
    rw [countPackages_append, h1]
    show countPackages r1 l2 = Except.ok (Report.add r1 r2)
    rw [countPackages_split, h2]
    rfl
  · exact aggregate_perm hp

/-- Witness for C9 at concrete corpora, including a two-record swap. -/
theorem aggregate_merge_and_perm_witness :
    aggregate ([] ++ []) = .ok (Report.add Report.empty Report.empty) ∧
    aggregate [⟨"flit", some "flit_core.buildapi", [], some []⟩,
               ⟨"setuptools", none, ["setup.py"], some []⟩]
      = aggregate [⟨"setuptools", none, ["setup.py"], some []⟩,
                   ⟨"flit", some "flit_core.buildapi", [], some []⟩] :=
  aggregate_merge_and_perm [] []
    [⟨"flit", some "flit_core.buildapi", [], some []⟩,
     ⟨"setuptools", none, ["setup.py"], some []⟩]
    [⟨"setuptools", none, ["setup.py"], some []⟩,
     ⟨"flit", some "flit_core.buildapi", [], some []⟩]
    Report.empty Report.empty rfl rfl
    (List.Perm.swap
      (⟨"setuptools", none, ["setup.py"], some []⟩ : ClassificationRecord)
      (⟨"flit", some "flit_core.buildapi", [], some []⟩ : ClassificationRecord) [])

/-- Claim C10: counting a non-setuptools record with absent requirements
raises the join type error (also aborting any corpus containing it), while
a setuptools record with absent requirements is counted exactly as if its
requirements were the empty list; aggregation is not total over records
with absent requirements. -/
theorem countPackage_absent_requires (acc : Report) (fam : String)
    (b bs : Option String) (fmts fmtss : List String)
    (rest : List ClassificationRecord)
    (h : ¬ fam = "setuptools") :
    countPackage acc ⟨fam, b, fmts, none⟩ = .error AggError.joinTypeError ∧
    aggregate (⟨fam, b, fmts, none⟩ :: rest) = .error AggError.joinTypeError ∧
    countPackage acc ⟨"setuptools", bs, fmtss, none⟩
      = countPackage acc ⟨"setuptools", bs, fmtss, some []⟩ := by
  refine ⟨by simp [countPackage, h], ?_, rfl⟩
  have hcp : countPackage Report.empty ⟨fam, b, fmts, none⟩
      = .error AggError.joinTypeError := by simp [countPackage, h]
  rw [aggregate_cons, hcp]

/-- Witness for C10 at a concrete flit record with absent requirements. -/
theorem countPackage_absent_requires_witness :
    countPackage Report.empty ⟨"flit", none, [], none⟩
      = .error AggError.joinTypeError ∧
    aggregate [⟨"flit", none, [], none⟩] = .error AggError.joinTypeError ∧
    countPackage Report.empty ⟨"setuptools", none, [], none⟩
      = countPackage Report.empty ⟨"setuptools", none, [], some []⟩ :=
  countPackage_absent_requires Report.empty "flit" none none [] [] [] (by decide)
